import Mathlib

/-!
Verification of the rendering/interaction core of the `rano-oss/iced` fork:
a shallow embedding of the tiny-skia software compositor (`present`,
`configure_surface`, `screenshot`), the `SelectionField` example widget's
event handling and layout, the virtual-keyboard state helpers, and the
wayland `Action::map` functions, together with theorems settling the spec
claims about them.

Coordinates and colors are modelled over `Rat` (the source uses `f32`; none
of the verified properties depend on rounding), machine integers over `Nat`,
and fallible or panicking code over explicit outcome types.
-/

namespace Iced

/-- A 2-D size (`iced_core::Size`), width and height. -/
structure Size where
  width : Rat
  height : Rat
deriving DecidableEq

/-- A 2-D point (`iced_core::Point`). -/
structure Point where
  x : Rat
  y : Rat
deriving DecidableEq

/-- An axis-aligned rectangle (`iced_core::Rectangle`). -/
structure Rect where
  x : Rat
  y : Rat
  width : Rat
  height : Rat
deriving DecidableEq

/-- `Rectangle::with_size`: a rectangle at the origin with the given size. -/
def Rect.withSize (s : Size) : Rect :=
  { x := 0, y := 0, width := s.width, height := s.height }

/-- Modelled from the spec: the hit-testing rule for `Rectangle::contains`
(the `rectangle` module of `iced_core` is absent from the sources) —
"a point is over a node's bounds using inclusive-exclusive rectangle
containment (x in [left, right), y in [top, bottom))". -/
def Rect.contains (r : Rect) (p : Point) : Bool :=
  decide (r.x ≤ p.x) && decide (p.x < r.x + r.width) &&
  decide (r.y ≤ p.y) && decide (p.y < r.y + r.height)

/-- An RGBA color (`iced_core::Color`). -/
structure Color where
  r : Rat
  g : Rat
  b : Rat
  a : Rat
deriving DecidableEq

/-- `Color::BLACK`. -/
def Color.black : Color := { r := 0, g := 0, b := 0, a := 1 }

/-- A drawing instruction, modelled from the spec: "a flat, serializable
drawing instruction with explicit bounds; comparable for equality across
frames" (the `Primitive` enum of the graphics crate is absent from the
sources; only its bounds and decidable equality are used here). -/
structure Primitive where
  bounds : Rect
  content : Nat
deriving DecidableEq

/-- A viewport: physical pixel dimensions, logical size and scale factor
(`iced_graphics::Viewport`, absent from the sources; only these accessors
are used by the compositor). -/
structure Viewport where
  physicalWidth : Nat
  physicalHeight : Nat
  logicalSize : Size
  scaleFactor : Rat

/-! ## tiny-skia compositor (`src/tiny_skia/src/window/compositor.rs`) -/

/-- The software-rendering surface (`Surface` in the tiny-skia compositor):
a pixel buffer of packed 32-bit ARGB words, a clip-mask size, the primitive
list of the last presented frame, and the last background color. -/
structure Surface where
  buffer : List Nat
  clipMaskWidth : Nat
  clipMaskHeight : Nat
  primitives : Option (List Primitive)
  background_color : Color
deriving DecidableEq

/-- `compositor::SurfaceError` variants used by `present`. -/
inductive SurfaceError where
  | invalidDimensions
  | resize
  | presentFailed (msg : String)
deriving DecidableEq

/-- Outcome of running compositor code: normal result, typed surface error,
or a Rust panic (an `expect` failure) with its message. -/
inductive Outcome (α : Type) where
  | ok (a : α)
  | err (e : SurfaceError)
  | panicked (msg : String)
deriving DecidableEq

/-- Modelled from the spec: `damage::list` of the graphics crate (absent from
the sources) — "pairwise-compare the two primitive lists: any Primitive
present in current but not equal (by value) to the corresponding-position
entry in previous contributes its bounds (and, for removed primitives, the
vacated bounds from the previous list)". -/
def damageList : List Primitive → List Primitive → List Rect
  | [], [] => []
  | p :: ps, c :: cs =>
      (if p = c then [] else [p.bounds, c.bounds]) ++ damageList ps cs
  | ps, [] => ps.map Primitive.bounds
  | [], cs => cs.map Primitive.bounds

/-- The damage computation inside `present` (compositor.rs lines 155-162):
reuse the stored frame only when it exists and the stored background color
matches; otherwise damage is the full logical viewport. -/
def computeDamage (surface : Surface) (primitives : List Primitive)
    (bg : Color) (viewport : Viewport) : List Rect :=
  match surface.primitives with
  | some last =>
      if surface.background_color = bg then damageList last primitives
      else [Rect.withSize viewport.logicalSize]
  | none => [Rect.withSize viewport.logicalSize]

/-- External collaborators of `present`, passed as parameters: the damage
grouping routine (`damage::group`, absent from the sources), the backend
draw (`Backend::draw`, absent from the sources; it mutates the pixel
buffer), and the success/failure of the softbuffer window calls. -/
structure Externals where
  group : List Rect → Rat → Nat → Nat → List Rect
  draw : List Nat → List Nat
  resizeOk : Bool
  bufferMutOk : Bool
  presentErr : Option String

/-- `present` (compositor.rs lines 137-210). Returns the updated surface and
whether `present_with_damage` was actually called. Panics of the source's
`expect` calls are `Outcome.panicked`. The pixel map is created first and
requires nonzero dimensions and a matching buffer length; the damage set is
computed next and an empty set returns `Ok` before any mutation; otherwise
the stored primitives and background are committed, the buffer drawn, the
window resized (zero dimensions would give `InvalidDimensions`, a resize
failure gives `Resize`), and the frame presented (a backend failure gives
`Present`). -/
def present (ext : Externals) (surface : Surface)
    (primitives : List Primitive) (viewport : Viewport) (bg : Color) :
    Outcome (Surface × Bool) :=
  let w := viewport.physicalWidth
  let h := viewport.physicalHeight
  if ¬(0 < w ∧ 0 < h ∧ surface.buffer.length = w * h) then
    .panicked "Create pixel map"
  else
    let damage := computeDamage surface primitives bg viewport
    if damage.isEmpty then .ok (surface, false)
    else
      let surface1 : Surface :=
        { surface with primitives := some primitives, background_color := bg }
      let grouped := ext.group damage viewport.scaleFactor w h
      let surface2 : Surface := { surface1 with buffer := ext.draw surface1.buffer }
      if w = 0 ∨ h = 0 then .err .invalidDimensions
      else if ¬ext.resizeOk then .err .resize
      else if ¬ext.bufferMutOk then .ok (surface2, false)
      else
        match ext.presentErr with
        | some e => .err (.presentFailed e)
        | none =>
            let _ := grouped
            .ok (surface2, true)

/-- `configure_surface` (compositor.rs lines 70-80): resize the pixel buffer
(keeping the prefix, zero-padding), recreate the clip mask at the new
dimensions, and clear the stored primitives. -/
def configure_surface (surface : Surface) (width height : Nat) : Surface :=
  { surface with
    buffer :=
      (surface.buffer.take (width * height)) ++
        List.replicate (width * height - surface.buffer.length) 0
    clipMaskWidth := width
    clipMaskHeight := height
    primitives := none }

/-- Decompose one packed 32-bit A-R-G-B pixel word into its bytes, emitted in
R, G, B, A order (the fold body of `screenshot`, compositor.rs
lines 243-258). -/
def pixelToRGBA (pixel : Nat) : List Nat :=
  let a := (0xFF000000 &&& pixel) >>> 24
  let r := (0x00FF0000 &&& pixel) >>> 16
  let g := (0x0000FF00 &&& pixel) >>> 8
  let b := 0x000000FF &&& pixel
  [r, g, b, a]

/-- `screenshot` (compositor.rs lines 212-260): draw the primitives into a
freshly zeroed offscreen buffer of `width * height` 32-bit pixels (the
backend draw is the external `draw` parameter), then fold over the pixels
emitting each one's bytes in R, G, B, A order. -/
def screenshot (draw : List Nat → List Nat) (viewport : Viewport) :
    List Nat :=
  let n := viewport.physicalWidth * viewport.physicalHeight
  let offscreen := draw (List.replicate n 0)
  offscreen.foldl (fun acc pixel => acc ++ pixelToRGBA pixel) []

/-! ## Events, cursor and the `SelectionField` widget
(`src/examples/sctk_input_method/src/selection_field/widget.rs`) -/

/-- `event::Status`: whether a widget consumed an event. -/
inductive Status where
  | captured
  | ignored
deriving DecidableEq

/-- `mouse::Button` (`src/core/src/mouse/button.rs`). -/
inductive MouseButton where
  | left
  | right
  | middle
  | back
  | forward
  | other (code : Nat)
deriving DecidableEq

/-- The mouse events the `SelectionField` widget distinguishes. -/
inductive MouseEvent where
  | cursorMoved (position : Point)
  | cursorEntered
  | cursorLeft
  | buttonPressed (button : MouseButton)
  | buttonReleased (button : MouseButton)
  | wheelScrolled
deriving DecidableEq

/-- The touch events the `SelectionField` widget distinguishes. -/
inductive TouchEvent where
  | fingerPressed (id : Nat) (position : Point)
  | fingerMoved (id : Nat) (position : Point)
  | fingerLifted (id : Nat) (position : Point)
  | fingerLost (id : Nat) (position : Point)
deriving DecidableEq

/-- A normalized input event (`iced_core::Event`), at the granularity the
verified widget code inspects it. -/
inductive Event where
  | mouse (e : MouseEvent)
  | touch (e : TouchEvent)
  | keyboard
  | window
  | platformSpecific
deriving DecidableEq

/-- `mouse::Cursor`: either an available position or unavailable. -/
inductive Cursor where
  | available (position : Point)
  | unavailable
deriving DecidableEq

/-- Modelled from the spec: `Cursor::position_in` (the `mouse::Cursor` code
is absent from the sources) — the cursor position relative to the bounds
when the cursor is over them per the spec's inclusive-exclusive hit rule,
`none` otherwise. -/
def Cursor.position_in : Cursor → Rect → Option Point
  | .available p, r =>
      if r.contains p then some { x := p.x - r.x, y := p.y - r.y } else none
  | .unavailable, _ => none

/-- Modelled from the spec: `Cursor::is_over` — whether the cursor position
is over the bounds per the spec's hit-testing rule. -/
def Cursor.is_over (c : Cursor) (r : Rect) : Bool :=
  (c.position_in r).isSome

/-- The persistent `State` of a `SelectionField` (widget.rs lines 317-321). -/
structure SFState where
  is_hovered : Bool
  is_pressed : Bool
deriving DecidableEq

/-- Result of one `on_event` dispatch: the widget state afterwards, the shell
message list afterwards, and the returned status. -/
structure OnEventResult (M : Type) where
  state : SFState
  shell : List M
  status : Status
deriving DecidableEq

/-- `SelectionField::on_event` (widget.rs lines 155-217). The child widget's
dispatch runs first against the child sub-geometry; it is abstracted by its
observable effects `childStatus` (its returned status) and `childShell` (the
messages it appended to the shell). If the child captured, the parent
returns `Captured` at once. Otherwise the parent matches the event: a cursor
move over its bounds sets the hover flag and publishes `onSelect` (capturing);
a left press / finger press over its bounds with `onPress` set records the
pressed flag (capturing); a left release / finger lift with the pressed flag
set clears it and publishes `onPress` only when the cursor is over the bounds
(capturing); finger-lost or cursor-left clears both flags (not capturing);
everything else is ignored. -/
def SelectionField.on_event {M : Type}
    (onPress onSelect : Option M)
    (childStatus : Status) (childShell : List M)
    (state : SFState) (event : Event) (bounds : Rect) (cursor : Cursor)
    (shell : List M) : OnEventResult M :=
  let shell := shell ++ childShell
  if childStatus = .captured then
    { state := state, shell := shell, status := .captured }
  else
    match event with
    | .mouse (.cursorMoved _) =>
        match cursor.position_in bounds with
        | some _ =>
            let state := { state with is_hovered := true }
            match onSelect with
            | some m =>
                { state := state, shell := shell ++ [m], status := .captured }
            | none => { state := state, shell := shell, status := .captured }
        | none => { state := state, shell := shell, status := .ignored }
    | .mouse (.buttonPressed .left) | .touch (.fingerPressed _ _) =>
        if onPress.isSome && cursor.is_over bounds then
          { state := { state with is_pressed := true }, shell := shell,
            status := .captured }
        else { state := state, shell := shell, status := .ignored }
    | .mouse (.buttonReleased .left) | .touch (.fingerLifted _ _) =>
        match onPress with
        | some m =>
            if state.is_pressed then
              let state := { state with is_pressed := false }
              if cursor.is_over bounds then
                { state := state, shell := shell ++ [m], status := .captured }
              else { state := state, shell := shell, status := .captured }
            else { state := state, shell := shell, status := .ignored }
        | none => { state := state, shell := shell, status := .ignored }
    | .touch (.fingerLost _ _) | .mouse .cursorLeft =>
        { state := { is_hovered := false, is_pressed := false },
          shell := shell, status := .ignored }
    | _ => { state := state, shell := shell, status := .ignored }

/-! ## Layout (`SelectionField::layout`, widget.rs lines 143-153)
The `iced_core::layout` module is absent from the sources; its `Limits`,
`Padding` and `Size` operations are modelled from the spec's layout
contract: constraints are a `[min, max]` bounding box, each widget resolves
its size policy against them, derives padded sub-constraints, and "returns
a node whose size is clamped to the original constraints' max". -/

/-- A size policy (`iced_core::Length`). -/
inductive Length where
  | fill
  | fillPortion (factor : Nat)
  | shrink
  | fixed (amount : Rat)
deriving DecidableEq

/-- Layout constraints: a bounding box of [min, max] width/height
(`layout::Limits`). -/
structure Limits where
  min : Size
  max : Size
deriving DecidableEq

/-- Padding on the four sides (`iced_core::Padding`). -/
structure Padding where
  top : Rat
  right : Rat
  bottom : Rat
  left : Rat
deriving DecidableEq

/-- Total horizontal padding. -/
def Padding.horizontal (p : Padding) : Rat := p.left + p.right

/-- Total vertical padding. -/
def Padding.vertical (p : Padding) : Rat := p.top + p.bottom

/-- Modelled from the spec: `Limits::width` — a fixed length clamps both
bounds of the width to the fixed amount (itself clamped into the incoming
box); fill/shrink policies leave the box unchanged. -/
def Limits.width (l : Limits) (w : Length) : Limits :=
  match w with
  | .fixed amount =>
      let c := Min.min l.max.width (Max.max l.min.width amount)
      { min := { l.min with width := c }, max := { l.max with width := c } }
  | _ => l

/-- Modelled from the spec: `Limits::height`, as for `Limits.width`. -/
def Limits.height (l : Limits) (h : Length) : Limits :=
  match h with
  | .fixed amount =>
      let c := Min.min l.max.height (Max.max l.min.height amount)
      { min := { l.min with height := c }, max := { l.max with height := c } }
  | _ => l

/-- Modelled from the spec: `Limits::pad` — shrink both bounds by the total
padding, saturating at zero ("down to zero, never negative"). -/
def Limits.pad (l : Limits) (p : Padding) : Limits :=
  { min := { width := Max.max (l.min.width - p.horizontal) 0,
             height := Max.max (l.min.height - p.vertical) 0 },
    max := { width := Max.max (l.max.width - p.horizontal) 0,
             height := Max.max (l.max.height - p.vertical) 0 } }

/-- Modelled from the spec: `Limits::resolve` — clamp an intrinsic content
size into the constraint box. -/
def Limits.resolve (l : Limits) (intrinsic : Size) : Size :=
  { width := Min.min l.max.width (Max.max l.min.width intrinsic.width),
    height := Min.min l.max.height (Max.max l.min.height intrinsic.height) }

/-- Modelled from the spec: `Padding::fit` — shrink the configured padding so
that the padded content still fits the outer bounds, keeping at most half of
the available slack per side. -/
def Padding.fit (p : Padding) (inner outer : Size) : Padding :=
  let aw := Max.max (outer.width - inner.width) 0
  let ah := Max.max (outer.height - inner.height) 0
  { top := Min.min p.top (ah / 2), right := Min.min p.right (aw / 2),
    bottom := Min.min p.bottom (ah / 2), left := Min.min p.left (aw / 2) }

/-- Modelled from the spec: `Size::pad` — grow a size by the total padding. -/
def Size.pad (s : Size) (p : Padding) : Size :=
  { width := s.width + p.horizontal, height := s.height + p.vertical }

/-- Computed geometry for one node (`layout::Node`): a local offset, a size,
and children positioned relative to this node. -/
structure Node where
  x : Rat
  y : Rat
  size : Size
  children : List Node

/-- `layout::Node::with_children`. -/
def Node.withChildren (size : Size) (children : List Node) : Node :=
  { x := 0, y := 0, size := size, children := children }

/-- `layout::Node::move_to`. -/
def Node.moveTo (n : Node) (p : Point) : Node :=
  { n with x := p.x, y := p.y }

/-- `SelectionField::layout` (widget.rs lines 143-153): restrict the limits
by the widget's width/height policies, lay out the content under those
limits (the content widget is abstracted as `childLayout`), fit the
configured padding to the content size and the limits' max, resolve the
padded limits against the content size and re-add the padding, and place
the content at the padding's top-left offset. -/
def SelectionField.layout (width height : Length) (padding : Padding)
    (childLayout : Limits → Node) (limits : Limits) : Node :=
  let limits1 := (limits.width width).height height
  let content := childLayout limits1
  let p := padding.fit content.size limits1.max
  let size := ((limits1.pad p).resolve content.size).pad p
  Node.withChildren size [content.moveTo { x := p.left, y := p.top }]

/-! ## Virtual keyboard state helpers
(`src/sctk/src/handlers/virtual_keyboard.rs` lines 95-129) -/

/-- A key event (`KeyEvent`, `src/core/src/event/wayland/input_method.rs`);
the keysym is abstracted to its raw value. -/
structure KeyEvent where
  time : Nat
  raw_code : Nat
  keysym : Nat
  utf8 : Option String
deriving DecidableEq

/-- `wl_keyboard::KeyState` as sent on the wire. -/
inductive WlKeyState where
  | pressed
  | released
deriving DecidableEq

/-- One `zwp_virtual_keyboard_v1::key` request sent to the compositor. -/
structure SentKey where
  time : Nat
  raw_code : Nat
  state : WlKeyState
deriving DecidableEq

/-- A seat as `press_key`/`release_key` see it: it may or may not own a
virtual keyboard (the handle is abstracted to a `Nat`). -/
structure SctkSeat where
  virtual_keyboard : Option Nat
deriving DecidableEq

/-- The part of `SctkState` the key helpers touch: the seat list. -/
structure SctkState where
  seats : List SctkSeat
deriving DecidableEq

/-- `SctkState::press_key` (virtual_keyboard.rs lines 99-108):
`self.seats.first().expect("seat not present")` panics on an empty seat
list (`none` here); with a first seat lacking a virtual keyboard nothing is
sent; otherwise one pressed key event is sent. -/
def SctkState.press_key (s : SctkState) (key : KeyEvent) :
    Option (List SentKey) :=
  match s.seats.head? with
  | none => none
  | some seat =>
      match seat.virtual_keyboard with
      | some _ => some [{ time := key.time, raw_code := key.raw_code,
                          state := .pressed }]
      | none => some []

/-- `SctkState::release_key` (virtual_keyboard.rs lines 110-119), as
`press_key` but sending a released key state. -/
def SctkState.release_key (s : SctkState) (key : KeyEvent) :
    Option (List SentKey) :=
  match s.seats.head? with
  | none => none
  | some seat =>
      match seat.virtual_keyboard with
      | some _ => some [{ time := key.time, raw_code := key.raw_code,
                          state := .released }]
      | none => some []

/-! ## Wayland runtime actions
(`src/runtime/src/command/platform_specific/wayland/virtual_keyboard.rs` and
`input_method_popup.rs`) -/

namespace vk

/-- The inner virtual-keyboard action (`ActionInner`): a key press carrying
its key event. -/
inductive ActionInner where
  | keyPressed (key_event : KeyEvent)
deriving DecidableEq

/-- The virtual-keyboard `Action<T>`: the inner action plus a phantom
message type parameter. -/
structure Action (T : Type) where
  inner : ActionInner
deriving DecidableEq

/-- `From<ActionInner> for Action<T>`. -/
def Action.fromInner {T : Type} (inner : ActionInner) : Action T :=
  { inner := inner }

/-- `Action::map` (virtual_keyboard.rs lines 38-49): rebuilds the action from
its unchanged inner value, never calling the supplied closure. -/
def Action.map {T A : Type} (a : Action T) (_f : T → A) : Action A :=
  Action.fromInner a.inner

end vk

namespace im

/-- `InputMethodPopupSettings` (input_method_popup.rs lines 8-16); the window
`Id` is abstracted to a `Nat`. -/
structure InputMethodPopupSettings where
  id : Nat
  size_limits : Limits
  size : Nat × Nat
deriving DecidableEq

/-- The input-method-popup `Action<T>` (input_method_popup.rs lines 35-56). -/
inductive Action (T : Type) where
  | popup (settings : InputMethodPopupSettings)
  | showPopup
  | hidePopup
  | size (id : Nat) (width : Nat) (height : Nat)

/-- `Action::map` (input_method_popup.rs lines 58-79): each variant maps to
the same variant with the same payload; the closure is never called. -/
def Action.map {T A : Type} : Action T → (T → A) → Action A
  | .popup settings, _ => .popup settings
  | .showPopup, _ => .showPopup
  | .hidePopup, _ => .hidePopup
  | .size id width height, _ => .size id width height

/-- The type-parameter-independent payload of an input-method-popup action,
used to observe that `map` preserves payloads. -/
inductive Payload where
  | popup (settings : InputMethodPopupSettings)
  | showPopup
  | hidePopup
  | size (id : Nat) (width : Nat) (height : Nat)
deriving DecidableEq

/-- Observe an action's payload. -/
def Action.payload {T : Type} : Action T → Payload
  | .popup settings => .popup settings
  | .showPopup => .showPopup
  | .hidePopup => .hidePopup
  | .size id width height => .size id width height

end im

/-! ## Theorems -/

/-- Comparing a primitive list against itself yields no damage. -/
lemma damageList_self (ps : List Primitive) : damageList ps ps = [] := by
  induction ps with
  | nil => rfl
  | cons p ps ih => simp [damageList, ih]

/-- C1: for every surface with a stored previous frame whose primitive list
is identical to the current frame's and whose stored background color equals
the current background color, `present` computes an empty damage set and
returns `Ok` without performing any presentation call, leaving the surface
(pixel buffer, stored primitive list and stored background color)
unchanged. (Valid pixel-map dimensions are assumed, as on any frame that
renders at all.) -/
theorem c1_identical_frame_skips_present (ext : Externals) (surface : Surface)
    (ps : List Primitive) (vp : Viewport) (bg : Color)
    (hprev : surface.primitives = some ps)
    (hbg : surface.background_color = bg)
    (hw : 0 < vp.physicalWidth) (hh : 0 < vp.physicalHeight)
    (hbuf : surface.buffer.length = vp.physicalWidth * vp.physicalHeight) :
    computeDamage surface ps bg vp = [] ∧
    present ext surface ps vp bg = .ok (surface, false) := by
  have hdamage : computeDamage surface ps bg vp = [] := by
    simp [computeDamage, hprev, hbg, damageList_self]
  refine ⟨hdamage, ?_⟩
  unfold present
  simp [hw, hh, hbuf, hdamage]

/-- C1 witness. -/
theorem c1_identical_frame_skips_present_witness :
    computeDamage
        { buffer := [0], clipMaskWidth := 1, clipMaskHeight := 1,
          primitives := some [], background_color := Color.black }
        [] Color.black
        { physicalWidth := 1, physicalHeight := 1,
          logicalSize := { width := 1, height := 1 }, scaleFactor := 1 }
        = [] ∧
    present
        { group := fun d _ _ _ => d, draw := id, resizeOk := true,
          bufferMutOk := true, presentErr := none }
        { buffer := [0], clipMaskWidth := 1, clipMaskHeight := 1,
          primitives := some [], background_color := Color.black }
        [] { physicalWidth := 1, physicalHeight := 1,
             logicalSize := { width := 1, height := 1 }, scaleFactor := 1 }
        Color.black
      = .ok ({ buffer := [0], clipMaskWidth := 1, clipMaskHeight := 1,
               primitives := some [], background_color := Color.black },
             false) :=
  c1_identical_frame_skips_present _ _ [] _ Color.black rfl rfl
    (by decide) (by decide) (by decide)

/-- C2: with no stored frame, or a stored background color different from
the current one, the damage set computed by `present` is the single
rectangle covering the entire (logical) viewport; and `configure_surface`
clears the stored primitives, so the next `present` after a resize likewise
computes a full-viewport damage set. -/
theorem c2_full_repaint_triggers (surface : Surface)
    (primitives : List Primitive) (bg : Color) (vp : Viewport)
    (width height : Nat)
    (hfull : surface.primitives = none ∨ surface.background_color ≠ bg) :
    computeDamage surface primitives bg vp
      = [Rect.withSize vp.logicalSize] ∧
    (configure_surface surface width height).primitives = none ∧
    computeDamage (configure_surface surface width height) primitives bg vp
      = [Rect.withSize vp.logicalSize] := by
  refine ⟨?_, rfl, by simp [computeDamage, configure_surface]⟩
  rcases hfull with hnone | hbg
  · simp [computeDamage, hnone]
  · unfold computeDamage
    rcases hp : surface.primitives with _ | last
    · rfl
    · simp [hbg]

/-- C2 witness. -/
theorem c2_full_repaint_triggers_witness :
    computeDamage
        { buffer := [], clipMaskWidth := 0, clipMaskHeight := 0,
          primitives := none, background_color := Color.black }
        [] Color.black
        { physicalWidth := 2, physicalHeight := 3,
          logicalSize := { width := 2, height := 3 }, scaleFactor := 1 }
      = [Rect.withSize { width := 2, height := 3 }] ∧
    (configure_surface
        { buffer := [], clipMaskWidth := 0, clipMaskHeight := 0,
          primitives := none, background_color := Color.black }
        2 3).primitives = none ∧
    computeDamage
        (configure_surface
          { buffer := [], clipMaskWidth := 0, clipMaskHeight := 0,
            primitives := none, background_color := Color.black }
          2 3)
        [] Color.black
        { physicalWidth := 2, physicalHeight := 3,
          logicalSize := { width := 2, height := 3 }, scaleFactor := 1 }
      = [Rect.withSize { width := 2, height := 3 }] :=
  c2_full_repaint_triggers _ [] Color.black _ 2 3 (Or.inl rfl)

/-- C7: `present` called with zero physical dimensions does not return the
typed `InvalidDimensions` error: it panics at the `expect("Create pixel
map")` call, which runs before the dimension checks (evaluated here at a
concrete failing input). -/
theorem c7_zero_dimensions_panic :
    present
        { group := fun d _ _ _ => d, draw := id, resizeOk := true,
          bufferMutOk := true, presentErr := none }
        { buffer := [], clipMaskWidth := 0, clipMaskHeight := 0,
          primitives := none, background_color := Color.black }
        [] { physicalWidth := 0, physicalHeight := 0,
             logicalSize := { width := 0, height := 0 }, scaleFactor := 1 }
        Color.black
      = .panicked "Create pixel map" := by
  rfl

/-- C9: `press_key` and `release_key` panic (`Option.none` here) when the
seat list is empty, and are a silent no-op (no key event sent) when the
first seat has no virtual keyboard. -/
theorem c9_press_release_key (s : SctkState) (k : KeyEvent) :
    (s.seats = [] → s.press_key k = none ∧ s.release_key k = none) ∧
    (∀ seat rest, s.seats = seat :: rest → seat.virtual_keyboard = none →
      s.press_key k = some [] ∧ s.release_key k = some []) := by
  constructor
  · intro hempty
    simp [SctkState.press_key, SctkState.release_key, hempty]
  · intro seat rest hseats hvk
    simp [SctkState.press_key, SctkState.release_key, hseats, hvk]

/-- C9 witness. -/
theorem c9_press_release_key_witness :
    (SctkState.press_key { seats := [] }
        { time := 0, raw_code := 0, keysym := 0, utf8 := none } = none ∧
     SctkState.release_key { seats := [] }
        { time := 0, raw_code := 0, keysym := 0, utf8 := none } = none) ∧
    (SctkState.press_key { seats := [{ virtual_keyboard := none }] }
        { time := 0, raw_code := 0, keysym := 0, utf8 := none } = some [] ∧
     SctkState.release_key { seats := [{ virtual_keyboard := none }] }
        { time := 0, raw_code := 0, keysym := 0, utf8 := none } = some []) := by
  have h1 := c9_press_release_key { seats := [] }
    { time := 0, raw_code := 0, keysym := 0, utf8 := none }
  have h2 := c9_press_release_key { seats := [{ virtual_keyboard := none }] }
    { time := 0, raw_code := 0, keysym := 0, utf8 := none }
  exact ⟨h1.1 rfl, h2.2 { virtual_keyboard := none } [] rfl rfl⟩

/-- C10: both `Action::map` functions never apply the mapping closure (the
result does not depend on it) and return an action with the identical
payload: the virtual-keyboard action keeps its inner `KeyPressed` key event,
and the input-method-popup action maps each variant to itself with the same
settings / id / width / height. -/
theorem c10_action_map_identity :
    (∀ (T A : Type) (f g : T → A) (a : vk.Action T),
      (a.map f).inner = a.inner ∧ a.map f = a.map g) ∧
    (∀ (T A : Type) (f g : T → A) (a : im.Action T),
      (a.map f).payload = a.payload ∧ a.map f = a.map g) := by
  refine ⟨fun T A f g a => ⟨rfl, rfl⟩, fun T A f g a => ?_⟩
  cases a <;> exact ⟨rfl, rfl⟩

/-- C3: when dispatching an event, `SelectionField::on_event` first forwards
the event to its child (whose shell publications appear first); if the child
reports `Captured`, the parent returns `Captured` immediately, with its own
state unchanged and nothing of its own published, for every event, cursor
and bounds. -/
theorem c3_child_capture_short_circuits {M : Type}
    (onPress onSelect : Option M) (childShell : List M) (state : SFState)
    (event : Event) (bounds : Rect) (cursor : Cursor) (shell : List M) :
    SelectionField.on_event onPress onSelect .captured childShell state event
        bounds cursor shell
      = { state := state, shell := shell ++ childShell,
          status := .captured } := by
  rfl

/-- C5: a left-button release (or finger lift) dispatched to a
`SelectionField` whose `is_pressed` flag is false publishes nothing of its
own, regardless of cursor position and child outcome; and a finger-lost or
cursor-left event (when the child does not capture it) resets both the
`is_hovered` and `is_pressed` flags without publishing. -/
theorem c5_release_without_press {M : Type}
    (onPress onSelect : Option M) (childStatus : Status) (childShell : List M)
    (state : SFState) (bounds : Rect) (cursor : Cursor) (shell : List M)
    (fid : Nat) (pos : Point)
    (hp : state.is_pressed = false) :
    ((SelectionField.on_event onPress onSelect childStatus childShell state
        (.mouse (.buttonReleased .left)) bounds cursor shell).shell
      = shell ++ childShell) ∧
    ((SelectionField.on_event onPress onSelect childStatus childShell state
        (.touch (.fingerLifted fid pos)) bounds cursor shell).shell
      = shell ++ childShell) ∧
    (childStatus = .ignored →
      ∀ ev ∈ [Event.touch (.fingerLost fid pos), Event.mouse .cursorLeft],
        SelectionField.on_event onPress onSelect childStatus childShell state
            ev bounds cursor shell
          = { state := { is_hovered := false, is_pressed := false },
              shell := shell ++ childShell, status := .ignored }) := by
  refine ⟨?_, ?_, ?_⟩
  · cases childStatus with
    | captured => rfl
    | ignored =>
        cases onPress with
        | none => rfl
        | some m => simp [SelectionField.on_event, hp]
  · cases childStatus with
    | captured => rfl
    | ignored =>
        cases onPress with
        | none => rfl
        | some m => simp [SelectionField.on_event, hp]
  · intro hc ev hev
    subst hc
    fin_cases hev <;> rfl

/-- C5 witness. -/
theorem c5_release_without_press_witness :
    ((SelectionField.on_event (M := Nat) (some 7) none .ignored []
        { is_hovered := false, is_pressed := false }
        (.mouse (.buttonReleased .left))
        { x := 0, y := 0, width := 10, height := 10 }
        (.available { x := 1, y := 1 }) []).shell = [] ++ []) ∧
    ((SelectionField.on_event (M := Nat) (some 7) none .ignored []
        { is_hovered := false, is_pressed := false }
        (.touch (.fingerLifted 0 { x := 1, y := 1 }))
        { x := 0, y := 0, width := 10, height := 10 }
        (.available { x := 1, y := 1 }) []).shell = [] ++ []) ∧
    (.ignored = Status.ignored →
      ∀ ev ∈ [Event.touch (.fingerLost 0 { x := 1, y := 1 }),
              Event.mouse .cursorLeft],
        SelectionField.on_event (M := Nat) (some 7) none .ignored []
            { is_hovered := false, is_pressed := false } ev
            { x := 0, y := 0, width := 10, height := 10 }
            (.available { x := 1, y := 1 }) []
          = { state := { is_hovered := false, is_pressed := false },
              shell := [] ++ [], status := .ignored }) :=
  c5_release_without_press (some 7) none .ignored []
    { is_hovered := false, is_pressed := false }
    { x := 0, y := 0, width := 10, height := 10 }
    (.available { x := 1, y := 1 }) [] 0 { x := 1, y := 1 } rfl

/-- C4: a `SelectionField` with `on_press` set behaves as a button: a left
press with the cursor over its bounds records the pressed flag and captures
without publishing; a following release with the cursor over the bounds
clears the flag, captures, and publishes exactly the `on_press` message; a
following release with the cursor outside the bounds clears the flag and
captures but publishes nothing. -/
theorem c4_button_press_release {M : Type} (m : M) (onSelect : Option M)
    (state0 : SFState) (bounds : Rect) (curPress curIn curOut : Cursor)
    (hPress : curPress.is_over bounds = true)
    (hIn : curIn.is_over bounds = true)
    (hOut : curOut.is_over bounds = false) :
    (SelectionField.on_event (some m) onSelect .ignored [] state0
        (.mouse (.buttonPressed .left)) bounds curPress []
      = { state := { state0 with is_pressed := true }, shell := [],
          status := .captured }) ∧
    (SelectionField.on_event (some m) onSelect .ignored []
        { state0 with is_pressed := true }
        (.mouse (.buttonReleased .left)) bounds curIn []
      = { state := { state0 with is_pressed := false }, shell := [m],
          status := .captured }) ∧
    (SelectionField.on_event (some m) onSelect .ignored []
        { state0 with is_pressed := true }
        (.mouse (.buttonReleased .left)) bounds curOut []
      = { state := { state0 with is_pressed := false }, shell := [],
          status := .captured }) := by
  refine ⟨?_, ?_, ?_⟩
  · simp [SelectionField.on_event, hPress]
  · simp [SelectionField.on_event, hIn]
  · simp [SelectionField.on_event, hOut]

/-- C4 witness. -/
theorem c4_button_press_release_witness :
    (SelectionField.on_event (M := Nat) (some 5) none .ignored []
        { is_hovered := false, is_pressed := false }
        (.mouse (.buttonPressed .left))
        { x := 0, y := 0, width := 10, height := 10 }
        (.available { x := 1, y := 1 }) []
      = { state := { is_hovered := false, is_pressed := true }, shell := [],
          status := .captured }) ∧
    (SelectionField.on_event (M := Nat) (some 5) none .ignored []
        { is_hovered := false, is_pressed := true }
        (.mouse (.buttonReleased .left))
        { x := 0, y := 0, width := 10, height := 10 }
        (.available { x := 2, y := 2 }) []
      = { state := { is_hovered := false, is_pressed := false },
          shell := [5], status := .captured }) ∧
    (SelectionField.on_event (M := Nat) (some 5) none .ignored []
        { is_hovered := false, is_pressed := true }
        (.mouse (.buttonReleased .left))
        { x := 0, y := 0, width := 10, height := 10 }
        (.available { x := 20, y := 20 }) []
      = { state := { is_hovered := false, is_pressed := false },
          shell := [], status := .captured }) :=
  c4_button_press_release 5 none { is_hovered := false, is_pressed := false }
    { x := 0, y := 0, width := 10, height := 10 }
    (.available { x := 1, y := 1 }) (.available { x := 2, y := 2 })
    (.available { x := 20, y := 20 })
    (by norm_num [Cursor.is_over, Cursor.position_in, Rect.contains])
    (by norm_num [Cursor.is_over, Cursor.position_in, Rect.contains])
    (by norm_num [Cursor.is_over, Cursor.position_in, Rect.contains])

/-- The byte-emitting fold of `screenshot` is concatenation of the per-pixel
byte lists. -/
lemma foldl_pixelToRGBA (l : List Nat) (acc : List Nat) :
    l.foldl (fun acc pixel => acc ++ pixelToRGBA pixel) acc
      = acc ++ l.flatMap pixelToRGBA := by
  induction l generalizing acc with
  | nil => simp
  | cons p l ih => simp [List.foldl, ih]

/-- Each pixel contributes exactly four bytes. -/
lemma length_flatMap_pixelToRGBA (l : List Nat) :
    (l.flatMap pixelToRGBA).length = l.length * 4 := by
  induction l with
  | nil => rfl
  | cons p l ih =>
      simp only [List.flatMap_cons, List.length_append, List.length_cons, ih,
        pixelToRGBA, List.length_nil]
      ring

/-- C8: `screenshot` returns the bytes of a freshly zeroed
`physical_width * physical_height` offscreen pixel buffer after drawing,
emitting each 32-bit A-R-G-B pixel's bytes in R, G, B, A order, so the
result has length exactly `physical_width * physical_height * 4`. (The
backend draw writes the buffer in place, so it preserves its length, which
is the hypothesis.) -/
theorem c8_screenshot_bytes (draw : List Nat → List Nat) (vp : Viewport)
    (h : (draw (List.replicate (vp.physicalWidth * vp.physicalHeight) 0)).length
          = vp.physicalWidth * vp.physicalHeight) :
    screenshot draw vp
      = (draw (List.replicate (vp.physicalWidth * vp.physicalHeight) 0)).flatMap
          pixelToRGBA ∧
    (screenshot draw vp).length = vp.physicalWidth * vp.physicalHeight * 4 := by
  have he : screenshot draw vp
      = (draw (List.replicate (vp.physicalWidth * vp.physicalHeight) 0)).flatMap
          pixelToRGBA := by
    unfold screenshot
    simpa using foldl_pixelToRGBA
      (draw (List.replicate (vp.physicalWidth * vp.physicalHeight) 0)) []
  refine ⟨he, ?_⟩
  rw [he, length_flatMap_pixelToRGBA, h]

/-- C8 witness. -/
theorem c8_screenshot_bytes_witness :
    screenshot id
        { physicalWidth := 1, physicalHeight := 1,
          logicalSize := { width := 1, height := 1 }, scaleFactor := 1 }
      = (id (List.replicate (1 * 1) 0)).flatMap pixelToRGBA ∧
    (screenshot id
        { physicalWidth := 1, physicalHeight := 1,
          logicalSize := { width := 1, height := 1 }, scaleFactor := 1 }).length
      = 1 * 1 * 4 :=
  c8_screenshot_bytes id
    { physicalWidth := 1, physicalHeight := 1,
      logicalSize := { width := 1, height := 1 }, scaleFactor := 1 } rfl

/-- Restricting the width policy never raises the max width. -/
lemma width_max_width_le (l : Limits) (len : Length) :
    (l.width len).max.width ≤ l.max.width := by
  cases len <;> simp [Limits.width, min_le_left]

/-- Restricting the width policy leaves the max height unchanged. -/
lemma width_max_height_eq (l : Limits) (len : Length) :
    (l.width len).max.height = l.max.height := by
  cases len <;> rfl

/-- Restricting the height policy never raises the max height. -/
lemma height_max_height_le (l : Limits) (len : Length) :
    (l.height len).max.height ≤ l.max.height := by
  cases len <;> simp [Limits.height, min_le_left]

/-- Restricting the height policy leaves the max width unchanged. -/
lemma height_max_width_eq (l : Limits) (len : Length) :
    (l.height len).max.width = l.max.width := by
  cases len <;> rfl

/-- The fit-pad-resolve chain of `SelectionField::layout` in one dimension:
with a nonnegative content extent `cv` within the max `maxv` and
nonnegative configured paddings `p1, p2`, the fitted paddings `q1, q2` are
nonnegative, the resolved extent `rv` is at least the content extent, and
the padded result stays within the max. -/
lemma fit_resolve_bound (minv maxv cv p1 p2 q1 q2 rv : Rat)
    (h0 : 0 ≤ cv) (hm : cv ≤ maxv) (hp1 : 0 ≤ p1) (hp2 : 0 ≤ p2)
    (e1 : q1 = min p1 (max (maxv - cv) 0 / 2))
    (e2 : q2 = min p2 (max (maxv - cv) 0 / 2))
    (er : rv = min (max (maxv - (q1 + q2)) 0)
                   (max (max (minv - (q1 + q2)) 0) cv)) :
    0 ≤ q1 ∧ 0 ≤ q2 ∧ cv ≤ rv ∧ rv + (q1 + q2) ≤ maxv := by
  have hav : (0 : Rat) ≤ maxv - cv := by linarith
  have havmax : max (maxv - cv) 0 = maxv - cv := max_eq_left hav
  have hhalf : (0 : Rat) ≤ max (maxv - cv) 0 / 2 :=
    div_nonneg (le_max_right _ _) (by norm_num)
  have hq1 : 0 ≤ q1 := e1 ▸ le_min hp1 hhalf
  have hq2 : 0 ≤ q2 := e2 ▸ le_min hp2 hhalf
  have hq1le : q1 ≤ (maxv - cv) / 2 := by
    rw [e1, havmax]; exact min_le_right _ _
  have hq2le : q2 ≤ (maxv - cv) / 2 := by
    rw [e2, havmax]; exact min_le_right _ _
  have hsum : q1 + q2 ≤ maxv - cv := by linarith
  have hpm : max (maxv - (q1 + q2)) 0 = maxv - (q1 + q2) :=
    max_eq_left (by linarith)
  have hrvge : cv ≤ rv := by
    rw [er]
    exact le_min (by rw [hpm]; linarith) (le_max_right _ _)
  have hrvle : rv ≤ maxv - (q1 + q2) := by
    rw [er]
    calc min (max (maxv - (q1 + q2)) 0) (max (max (minv - (q1 + q2)) 0) cv)
        ≤ max (maxv - (q1 + q2)) 0 := min_le_left _ _
      _ = maxv - (q1 + q2) := hpm
  exact ⟨hq1, hq2, hrvge, by linarith⟩

/-- C6: for every incoming limits, the node returned by
`SelectionField::layout` has width and height no larger than the incoming
constraints' max, and its (single) child's bounds — offset plus size — lie
within the parent node's resolved size. Quantified over all rational
constraints, including zero-size ones; the hypotheses ask the configured
padding to be nonnegative and the content widget to respect the limits it
was handed (nonnegative size bounded by the adjusted max), the layout
contract every widget provides. -/
theorem c6_layout_containment (widthLen heightLen : Length)
    (padding : Padding) (childLayout : Limits → Node) (limits : Limits)
    (hpt : 0 ≤ padding.top) (hpr : 0 ≤ padding.right)
    (hpb : 0 ≤ padding.bottom) (hpl : 0 ≤ padding.left)
    (hcw0 : 0 ≤ (childLayout ((limits.width widthLen).height heightLen)).size.width)
    (hch0 : 0 ≤ (childLayout ((limits.width widthLen).height heightLen)).size.height)
    (hcw : (childLayout ((limits.width widthLen).height heightLen)).size.width
            ≤ ((limits.width widthLen).height heightLen).max.width)
    (hch : (childLayout ((limits.width widthLen).height heightLen)).size.height
            ≤ ((limits.width widthLen).height heightLen).max.height) :
    (SelectionField.layout widthLen heightLen padding childLayout limits).size.width
        ≤ limits.max.width ∧
    (SelectionField.layout widthLen heightLen padding childLayout limits).size.height
        ≤ limits.max.height ∧
    ∀ child ∈ (SelectionField.layout widthLen heightLen padding childLayout
        limits).children,
      0 ≤ child.x ∧ 0 ≤ child.y ∧
      child.x + child.size.width
        ≤ (SelectionField.layout widthLen heightLen padding childLayout
            limits).size.width ∧
      child.y + child.size.height
        ≤ (SelectionField.layout widthLen heightLen padding childLayout
            limits).size.height := by
  have hWle : ((limits.width widthLen).height heightLen).max.width
      ≤ limits.max.width := by
    rw [height_max_width_eq]; exact width_max_width_le _ _
  have hHle : ((limits.width widthLen).height heightLen).max.height
      ≤ limits.max.height := by
    calc ((limits.width widthLen).height heightLen).max.height
        ≤ (limits.width widthLen).max.height := height_max_height_le _ _
      _ = limits.max.height := width_max_height_eq _ _
  set L1 := (limits.width widthLen).height heightLen with hL1
  set c := childLayout L1 with hc
  obtain ⟨hq1w, hq2w, hrvw, hsw⟩ :=
    fit_resolve_bound L1.min.width L1.max.width c.size.width
      padding.left padding.right
      (min padding.left (max (L1.max.width - c.size.width) 0 / 2))
      (min padding.right (max (L1.max.width - c.size.width) 0 / 2))
      (min (max (L1.max.width -
              (min padding.left (max (L1.max.width - c.size.width) 0 / 2) +
               min padding.right (max (L1.max.width - c.size.width) 0 / 2))) 0)
           (max (max (L1.min.width -
              (min padding.left (max (L1.max.width - c.size.width) 0 / 2) +
               min padding.right (max (L1.max.width - c.size.width) 0 / 2))) 0)
             c.size.width))
      hcw0 hcw hpl hpr rfl rfl rfl
  obtain ⟨hq1h, hq2h, hrvh, hsh⟩ :=
    fit_resolve_bound L1.min.height L1.max.height c.size.height
      padding.top padding.bottom
      (min padding.top (max (L1.max.height - c.size.height) 0 / 2))
      (min padding.bottom (max (L1.max.height - c.size.height) 0 / 2))
      (min (max (L1.max.height -
              (min padding.top (max (L1.max.height - c.size.height) 0 / 2) +
               min padding.bottom (max (L1.max.height - c.size.height) 0 / 2))) 0)
           (max (max (L1.min.height -
              (min padding.top (max (L1.max.height - c.size.height) 0 / 2) +
               min padding.bottom (max (L1.max.height - c.size.height) 0 / 2))) 0)
             c.size.height))
      hch0 hch hpt hpb rfl rfl rfl
  simp only [SelectionField.layout, Padding.fit, Limits.pad, Limits.resolve,
    Size.pad, Padding.horizontal, Padding.vertical, Node.withChildren,
    Node.moveTo, ← hL1, ← hc, List.mem_singleton]
  refine ⟨by linarith, by linarith, ?_⟩
  intro child hchild
  subst hchild
  simp only []
  refine ⟨hq1w, hq1h, ?_, ?_⟩
  · linarith
  · linarith

/-- C6 witness. -/
theorem c6_layout_containment_witness :
    (SelectionField.layout .shrink .shrink
        { top := 2, right := 2, bottom := 2, left := 2 }
        (fun _ => Node.withChildren { width := 3, height := 4 } [])
        { min := { width := 0, height := 0 },
          max := { width := 10, height := 10 } }).size.width ≤ 10 ∧
    (SelectionField.layout .shrink .shrink
        { top := 2, right := 2, bottom := 2, left := 2 }
        (fun _ => Node.withChildren { width := 3, height := 4 } [])
        { min := { width := 0, height := 0 },
          max := { width := 10, height := 10 } }).size.height ≤ 10 ∧
    ∀ child ∈ (SelectionField.layout .shrink .shrink
        { top := 2, right := 2, bottom := 2, left := 2 }
        (fun _ => Node.withChildren { width := 3, height := 4 } [])
        { min := { width := 0, height := 0 },
          max := { width := 10, height := 10 } }).children,
      0 ≤ child.x ∧ 0 ≤ child.y ∧
      child.x + child.size.width
        ≤ (SelectionField.layout .shrink .shrink
            { top := 2, right := 2, bottom := 2, left := 2 }
            (fun _ => Node.withChildren { width := 3, height := 4 } [])
            { min := { width := 0, height := 0 },
              max := { width := 10, height := 10 } }).size.width ∧
      child.y + child.size.height
        ≤ (SelectionField.layout .shrink .shrink
            { top := 2, right := 2, bottom := 2, left := 2 }
            (fun _ => Node.withChildren { width := 3, height := 4 } [])
            { min := { width := 0, height := 0 },
              max := { width := 10, height := 10 } }).size.height :=
  c6_layout_containment .shrink .shrink
    { top := 2, right := 2, bottom := 2, left := 2 }
    (fun _ => Node.withChildren { width := 3, height := 4 } [])
    { min := { width := 0, height := 0 },
      max := { width := 10, height := 10 } }
    (by norm_num) (by norm_num) (by norm_num) (by norm_num)
    (by norm_num [Node.withChildren])
    (by norm_num [Node.withChildren])
    (by norm_num [Node.withChildren, Limits.width, Limits.height])
    (by norm_num [Node.withChildren, Limits.width, Limits.height])

end Iced
